import Mathlib

/-!
Verification of the AI Logo Spark application (src/app.py).

The program has three pieces of logic:
* `create_logo_prompt` — a pure string template (lines 35–46);
* `generate_logo_concepts` — a sequential loop of external image-generation
  calls, aborting the whole batch on the first failure (lines 49–68);
* the submit handler and result-display loop (lines 97–120), which validates
  the form, runs the generator, and for each returned URL fetches the image
  bytes and offers a per-item download button.

External effects (the OpenAI image API and the `requests.get` content fetch)
are modelled as oracles: the image API is a function from the prompt and the
index of the issued call to either an image URL or an error message (the
exception text), and the fetch is a function from a URL to either the binary
content or an error.  Streamlit display calls are recorded as data
(displayed error message, warning flag, per-item download state).
-/

namespace AILogoSpark

/-- The external image-synthesis capability (`openai.images.generate`):
given the prompt and the index of the sequential call being issued, it
either returns the URL of the single generated image (`response.data[0].url`)
or raises an exception carrying a message. -/
def ImageApi : Type := String → Nat → Except String String

/-- The content-fetch capability (`requests.get(url).content`): given an
image URL it either returns the raw content or raises. -/
def Fetch : Type := String → Except String String

/-- Embedding of `create_logo_prompt(company_description, logo_style,
color_palette)` (src/app.py lines 35–46): the fixed template with the three
inputs interpolated verbatim. -/
def create_logo_prompt (company_description logo_style color_palette : String) : String :=
  "A modern, clean, vector logo for a company. " ++
  "The company is: \x27" ++ company_description ++ "\x27. " ++
  "The logo style should be: \x27" ++ logo_style ++ "\x27. " ++
  "Use the color palette: \x27" ++ color_palette ++ "\x27. " ++
  "The logo should be on a clean, solid white background, suitable for branding. " ++
  "The design must be simple, memorable, and professional. " ++
  "Avoid 3D rendering and complex text. The logo should be iconic."

/-- The fixed set offered by the style selectbox (src/app.py line 88). -/
def logo_styles : List String :=
  ["Minimalist", "Geometric", "Abstract", "Vintage", "Playful", "Corporate"]

/-- The observable outcome of one run of `generate_logo_concepts`:
its Python return value (`None` on the except-branch, the list of URLs
otherwise), how many external image-generation calls were issued, and the
error message displayed via `st.error` (if any). -/
structure GenOutcome where
  retval : Option (List String)
  callsIssued : Nat
  displayedError : Option String
  deriving Repr, DecidableEq

/-- The loop body of `generate_logo_concepts` (src/app.py lines 52–68):
`i` is the index of the next call to issue (so `i` calls have been issued so
far), the second argument is the number of iterations remaining, and `acc`
is `image_urls` built so far.  On an exception the whole function returns
`None` after showing the formatted error. -/
def genGo (api : Nat → Except String String) : Nat → Nat → List String → GenOutcome
  | i, 0, acc => { retval := some acc, callsIssued := i, displayedError := none }
  | i, n + 1, acc =>
    match api i with
    | Except.ok url => genGo api (i + 1) n (acc ++ [url])
    | Except.error e =>
      { retval := none
        callsIssued := i + 1
        displayedError := some ("An error occurred while generating images: " ++ e) }

/-- Embedding of `generate_logo_concepts(prompt, num_images)` (src/app.py
lines 49–68), parameterised by the external image API. -/
def generate_logo_concepts (api : ImageApi) (prompt : String) (num_images : Nat) : GenOutcome :=
  genGo (api prompt) 0 num_images []

/-- Python truthiness of the generator's return value, as tested by
`if logo_urls:` in the submit handler (src/app.py line 105): `None` and the
empty list are falsy. -/
def pyTruthy : Option (List String) → Bool
  | none => false
  | some l => !l.isEmpty

/-- One iteration of the result-display loop (src/app.py lines 110–118) for
the item at 0-based position `i`: if the fetch succeeds a download button is
offered under the deterministic filename, otherwise this item alone shows a
fetch-error notice (`none`). -/
def present_item (fetch : Fetch) (i : Nat) (url : String) : Option String :=
  match fetch url with
  | Except.ok _ => some ("logo_concept_" ++ toString (i + 1) ++ ".png")
  | Except.error _ => none

/-- The result-display loop (src/app.py lines 110–118): for each URL, in
order, one download affordance (`some filename`) or an inline fetch-error
state (`none`). -/
def present_results (fetch : Fetch) (urls : List String) : List (Option String) :=
  urls.enum.map (fun p => present_item fetch p.1 p.2)

/-- The observable outcome of one form submission (src/app.py lines
97–120): how many image-generation calls and how many content-fetch calls
were issued, whether the validation warning was shown, whether the batch
error message was shown, and the per-item download state of the result
grid. -/
structure SubmitResult where
  genCallsIssued : Nat
  fetchCallsIssued : Nat
  warningShown : Bool
  batchErrorShown : Bool
  items : List (Option String)
  deriving Repr, DecidableEq

/-- Embedding of the submit handler (src/app.py lines 97–120): if either
required free-text field is empty the submission is rejected with a warning
before any network call; otherwise the prompt is built, the generator runs
with its default `num_images=4`, and the result is either presented
per-item (one fetch per URL, even for items whose fetch fails) or replaced
by the aggregated batch error message. -/
def handle_submit (api : ImageApi) (fetch : Fetch)
    (desc_input style_input color_input : String) : SubmitResult :=
  if desc_input = "" ∨ color_input = "" then
    { genCallsIssued := 0, fetchCallsIssued := 0, warningShown := true
      batchErrorShown := false, items := [] }
  else
    let final_prompt := create_logo_prompt desc_input style_input color_input
    let out := generate_logo_concepts api final_prompt 4
    if pyTruthy out.retval then
      let urls := out.retval.getD []
      { genCallsIssued := out.callsIssued, fetchCallsIssued := urls.length
        warningShown := false, batchErrorShown := false
        items := present_results fetch urls }
    else
      { genCallsIssued := out.callsIssued, fetchCallsIssued := 0
        warningShown := false, batchErrorShown := true, items := [] }

/-- `sub` occurs verbatim as a substring of `s`. -/
def strContains (s sub : String) : Prop := sub.data <:+: s.data

/-- The URL carried by a successful API response (and `""` on an error;
only ever used under an `isOk` hypothesis). -/
def okValue : Except String String → String
  | Except.ok u => u
  | Except.error _ => ""

/-- A concrete API behaviour: every call succeeds, the i-th call returning
a distinct URL. -/
def apiAllOk : ImageApi := fun _ i => Except.ok ("https://img.example/" ++ toString i)

/-- The URLs produced by `apiAllOk`. -/
def okUrls : Nat → String := fun i => "https://img.example/" ++ toString i

/-- A concrete API behaviour: the 3rd call (index 2) raises a
content-policy rejection; every other call succeeds. -/
def apiPolicyFail3 : ImageApi := fun _ i =>
  if i = 2 then Except.error ("content-policy rejection")
  else Except.ok ("https://img.example/" ++ toString i)

/-- A concrete API behaviour: the 3rd call (index 2) raises a rate-limit
error; every other call succeeds. -/
def apiRateLimitFail3 : ImageApi := fun _ i =>
  if i = 2 then Except.error ("rate limit")
  else Except.ok ("https://img.example/" ++ toString i)

/-- A concrete fetch behaviour: every fetch succeeds. -/
def fetchAllOk : Fetch := fun url => Except.ok ("bytes:" ++ url)

/-- A concrete fetch behaviour: fetching the URL "u2" fails; every other
fetch succeeds. -/
def fetchFail2 : Fetch := fun url =>
  if url = "u2" then Except.error ("timeout") else Except.ok ("bytes:" ++ url)

lemma okValue_eq (r : Except String String) (h : r.isOk = true) :
    r = Except.ok (okValue r) := by
  cases r with
  | ok u => rfl
  | error e => simp [Except.isOk, Except.toBool] at h

lemma genGo_all_ok (api : Nat → Except String String) (urls : Nat → String) :
    ∀ (n i : Nat) (acc : List String),
      (∀ k, k < n → api (i + k) = Except.ok (urls (i + k))) →
      genGo api i n acc =
        { retval := some (acc ++ (List.range' i n).map urls)
          callsIssued := i + n, displayedError := none } := by
  intro n
  induction n with
  | zero => intro i acc _; simp [genGo, List.range']
  | succ n ih =>
    intro i acc h
    have h0 : api i = Except.ok (urls i) := by simpa using h 0 (Nat.succ_pos n)
    have hrest : ∀ k, k < n → api (i + 1 + k) = Except.ok (urls (i + 1 + k)) := by
      intro k hk
      have := h (k + 1) (by omega)
      have e : i + (k + 1) = i + 1 + k := by omega
      rwa [e] at this
    have := ih (i + 1) (acc ++ [urls i]) hrest
    simp only [genGo, h0]
    rw [this]
    simp [List.range'_succ, List.append_assoc]
    omega

lemma genGo_some_all_ok (api : Nat → Except String String) :
    ∀ (n i : Nat) (acc : List String) (l : List String),
      (genGo api i n acc).retval = some l →
      ∀ k, k < n → (api (i + k)).isOk = true := by
  intro n
  induction n with
  | zero => intro i acc l _ k hk; omega
  | succ n ih =>
    intro i acc l hl k hk
    cases hapi : api i with
    | ok u =>
      cases k with
      | zero => simp [hapi, Except.isOk, Except.toBool]
      | succ k =>
        have hl' : (genGo api (i + 1) n (acc ++ [u])).retval = some l := by
          simpa [genGo, hapi] using hl
        have := ih (i + 1) (acc ++ [u]) l hl' k (by omega)
        have e : i + 1 + k = i + (k + 1) := by omega
        rwa [e] at this
    | error e => simp [genGo, hapi] at hl

lemma genGo_fails (api : Nat → Except String String) (e : String) :
    ∀ (k n i : Nat) (acc : List String),
      k < n → (∀ j, j < k → (api (i + j)).isOk = true) →
      api (i + k) = Except.error e →
      genGo api i n acc =
        { retval := none, callsIssued := i + k + 1
          displayedError :=
            some ("An error occurred while generating images: " ++ e) } := by
  intro k
  induction k with
  | zero =>
    intro n i acc hn _ hfail
    cases n with
    | zero => omega
    | succ n => simp [genGo, show api i = Except.error e by simpa using hfail]
  | succ k ih =>
    intro n i acc hn hok hfail
    cases n with
    | zero => omega
    | succ n =>
      have h0 : (api i).isOk = true := by simpa using hok 0 (Nat.succ_pos k)
      cases hapi : api i with
      | error e' => rw [hapi] at h0; simp [Except.isOk, Except.toBool] at h0
      | ok u =>
        have hok' : ∀ j, j < k → (api (i + 1 + j)).isOk = true := by
          intro j hj
          have := hok (j + 1) (by omega)
          have eq1 : i + (j + 1) = i + 1 + j := by omega
          rwa [eq1] at this
        have hfail' : api (i + 1 + k) = Except.error e := by
          have eq1 : i + (k + 1) = i + 1 + k := by omega
          rwa [eq1] at hfail
        have := ih n (i + 1) (acc ++ [u]) (by omega) hok' hfail'
        simp only [genGo, hapi]
        rw [this]
        simp
        omega

lemma genGo_calls_le (api : Nat → Except String String) :
    ∀ (n i : Nat) (acc : List String), (genGo api i n acc).callsIssued ≤ i + n := by
  intro n
  induction n with
  | zero => intro i acc; simp [genGo]
  | succ n ih =>
    intro i acc
    cases hapi : api i with
    | ok u =>
      have := ih (i + 1) (acc ++ [u])
      simp only [genGo, hapi]
      omega
    | error e => simp [genGo, hapi]

lemma present_results_length (fetch : Fetch) (urls : List String) :
    (present_results fetch urls).length = urls.length := by
  simp [present_results]

lemma present_results_get (fetch : Fetch) (urls : List String) (i : Nat)
    (hi : i < urls.length) (hi' : i < (present_results fetch urls).length) :
    (present_results fetch urls).get ⟨i, hi'⟩ =
      present_item fetch i (urls.get ⟨i, hi⟩) := by
  simp [present_results, List.getElem_map, List.getElem_enum]

lemma strContains_intro (s sub a b : String) (h : s = a ++ sub ++ b) :
    strContains s sub := by
  subst h
  exact ⟨a.data, b.data, by simp [String.data_append]⟩

lemma strContains_intro2 (s sub b : String) (h : s = sub ++ b) :
    strContains s sub := by
  subst h
  exact ⟨[], b.data, by simp [String.data_append]⟩

/-- Claim C1: if any one of the N sequential image-generation sub-requests
issued by `generate_logo_concepts` fails, the function returns the failure
value `None` — never a partial (shorter-than-N) list of previously
succeeded image references. -/
theorem batch_aborts_on_any_failure (api : ImageApi) (prompt : String) (N : Nat)
    (h : ∃ k, k < N ∧ (api prompt k).isOk = false) :
    (generate_logo_concepts api prompt N).retval = none := by
  obtain ⟨k, hk, hfail⟩ := h
  cases hr : (generate_logo_concepts api prompt N).retval with
  | none => rfl
  | some l =>
    have := genGo_some_all_ok (api prompt) N 0 [] l hr k hk
    simp only [Nat.zero_add] at this
    rw [this] at hfail
    cases hfail

/-- Witness for C1: with the 3rd of 4 calls failing, the batch result is
`None`. -/
theorem batch_aborts_on_any_failure_witness :
    (generate_logo_concepts apiPolicyFail3 ("p") 4).retval = none :=
  batch_aborts_on_any_failure apiPolicyFail3 ("p") 4 ⟨2, by decide, by decide⟩

/-- Claim C2: if all N sub-requests succeed, `generate_logo_concepts`
returns a list of exactly N image references, the i-th element being the
URL returned by the i-th issued request. -/
theorem batch_success_preserves_order (api : ImageApi) (prompt : String)
    (urls : Nat → String) (N : Nat)
    (h : ∀ k, k < N → api prompt k = Except.ok (urls k)) :
    ∃ l, (generate_logo_concepts api prompt N).retval = some l ∧
      l.length = N ∧ ∀ i, (hi : i < l.length) → l.get ⟨i, hi⟩ = urls i := by
  have hall : ∀ k, k < N → api prompt (0 + k) = Except.ok (urls (0 + k)) := by
    intro k hk
    simpa using h k hk
  have := genGo_all_ok (api prompt) urls N 0 [] hall
  refine ⟨(List.range' 0 N).map urls, ?_, ?_, ?_⟩
  · rw [generate_logo_concepts, this]
    simp
  · simp
  · intro i hi
    have hi2 : i < N := by simpa using hi
    simp [List.get_eq_getElem, List.getElem_map, List.getElem_range', Nat.zero_add]

/-- Witness for C2: with all 4 calls succeeding, the result is the ordered
list of the 4 returned URLs. -/
theorem batch_success_preserves_order_witness :
    ∃ l, (generate_logo_concepts apiAllOk ("p") 4).retval = some l ∧
      l.length = 4 ∧ ∀ i, (hi : i < l.length) → l.get ⟨i, hi⟩ = okUrls i :=
  batch_success_preserves_order apiAllOk ("p") okUrls 4 (fun _ _ => rfl)

/-- Counterexample to claim C3: with 4 sub-requests whose 3rd fails, the
value `generate_logo_concepts` returns to its caller is the same bare
`None` whether the underlying cause is a content-policy rejection or a
rate limit, while the two causes (and the displayed messages) differ — so
the returned value does not carry the underlying cause. -/
theorem failure_value_carries_no_cause :
    (generate_logo_concepts apiPolicyFail3 ("p") 4).retval
        = (generate_logo_concepts apiRateLimitFail3 ("p") 4).retval
      ∧ (generate_logo_concepts apiPolicyFail3 ("p") 4).displayedError
        ≠ (generate_logo_concepts apiRateLimitFail3 ("p") 4).displayedError := by
  constructor
  · rfl
  · decide

/-- Claim C3 as amended: when a sub-request fails, the Concept Generator
returns the bare failure marker `None` to its caller; the underlying cause
is carried in the single aggregated error message displayed to the user,
which embeds the exception text verbatim. -/
theorem failure_reported_with_cause_in_message (api : ImageApi) (prompt : String)
    (N k : Nat) (e : String) (h1 : k < N)
    (h2 : ∀ j, j < k → (api prompt j).isOk = true)
    (h3 : api prompt k = Except.error e) :
    (generate_logo_concepts api prompt N).retval = none ∧
    (generate_logo_concepts api prompt N).displayedError =
      some ("An error occurred while generating images: " ++ e) ∧
    strContains ("An error occurred while generating images: " ++ e) e := by
  have h2' : ∀ j, j < k → ((api prompt) (0 + j)).isOk = true := by
    intro j hj; simpa using h2 j hj
  have h3' : (api prompt) (0 + k) = Except.error e := by simpa using h3
  have := genGo_fails (api prompt) e k N 0 [] h1 h2' h3'
  rw [generate_logo_concepts, this]
  refine ⟨rfl, rfl, ?_⟩
  exact strContains_intro _ e ("An error occurred while generating images: ") ("")
    (by rw [String.append_empty])

/-- Witness for the amended C3: 4 sub-requests, the 3rd failing with a
content-policy rejection. -/
theorem failure_reported_with_cause_in_message_witness :
    (generate_logo_concepts apiPolicyFail3 ("p") 4).retval = none ∧
    (generate_logo_concepts apiPolicyFail3 ("p") 4).displayedError =
      some ("An error occurred while generating images: " ++ "content-policy rejection") ∧
    strContains ("An error occurred while generating images: " ++ "content-policy rejection")
      ("content-policy rejection") :=
  failure_reported_with_cause_in_message apiPolicyFail3 ("p") 4 2
    ("content-policy rejection") (by decide) (by decide) rfl

/-- Claim C8: the Concept Generator never retries: on a first failure at
0-based position k exactly k+1 external calls have been issued (the k prior
successes plus the failing call), and in every run the number of issued
calls never exceeds the requested count. -/
theorem no_automatic_retry (api : ImageApi) (prompt : String) (N k : Nat) (e : String)
    (h1 : k < N) (h2 : ∀ j, j < k → (api prompt j).isOk = true)
    (h3 : api prompt k = Except.error e) :
    (generate_logo_concepts api prompt N).callsIssued = k + 1 ∧
    ∀ (api' : ImageApi) (prompt' : String) (M : Nat),
      (generate_logo_concepts api' prompt' M).callsIssued ≤ M := by
  constructor
  · have h2' : ∀ j, j < k → ((api prompt) (0 + j)).isOk = true := by
      intro j hj; simpa using h2 j hj
    have h3' : (api prompt) (0 + k) = Except.error e := by simpa using h3
    have := genGo_fails (api prompt) e k N 0 [] h1 h2' h3'
    rw [generate_logo_concepts, this]
    simp
  · intro api' prompt' M
    have := genGo_calls_le (api' prompt') M 0 []
    simpa using this

/-- Witness for C8: with the 3rd of 4 calls failing, exactly 3 calls were
issued. -/
theorem no_automatic_retry_witness :
    (generate_logo_concepts apiPolicyFail3 ("p") 4).callsIssued = 2 + 1 ∧
    ∀ (api' : ImageApi) (prompt' : String) (M : Nat),
      (generate_logo_concepts api' prompt' M).callsIssued ≤ M :=
  no_automatic_retry apiPolicyFail3 ("p") 4 2 ("content-policy rejection")
    (by decide) (by decide) rfl

/-- Claim C10: `generate_logo_concepts` returns either a list of exactly
`num_images` references or `None`, never a non-empty partial list; for
`num_images = 0` it returns the empty list having issued zero calls, and
the caller's truthiness test treats that empty list exactly like the
failure value `None`. -/
theorem retval_all_or_nothing :
    (∀ (api : ImageApi) (prompt : String) (N : Nat),
        (generate_logo_concepts api prompt N).retval = none ∨
        ∃ l, (generate_logo_concepts api prompt N).retval = some l ∧ l.length = N) ∧
    (∀ (api : ImageApi) (prompt : String),
        generate_logo_concepts api prompt 0 =
          { retval := some [], callsIssued := 0, displayedError := none }) ∧
    pyTruthy (some []) = pyTruthy none ∧ pyTruthy none = false := by
  refine ⟨?_, ?_, rfl, rfl⟩
  · intro api prompt N
    cases hr : (generate_logo_concepts api prompt N).retval with
    | none => exact Or.inl rfl
    | some l =>
      refine Or.inr ⟨l, rfl, ?_⟩
      have hok : ∀ k, k < N → ((api prompt) (0 + k)).isOk = true :=
        genGo_some_all_ok (api prompt) N 0 [] l hr
      have hall : ∀ k, k < N →
          (api prompt) (0 + k) = Except.ok ((fun j => okValue (api prompt j)) (0 + k)) := by
        intro k hk
        exact okValue_eq _ (hok k hk)
      have := genGo_all_ok (api prompt) (fun j => okValue (api prompt j)) N 0 [] hall
      rw [generate_logo_concepts, this] at hr
      simp only [List.nil_append, Option.some.injEq] at hr
      rw [← hr]
      simp
  · intro api prompt
    rfl

/-- Claim C4: for every triple of non-empty inputs with the style drawn
from the fixed 6-value set, the engineered prompt contains each of the
three inputs verbatim as a substring together with every fixed directive
phrase of the template (the clean-vector-logo directive, the solid white
background directive, and the no-3D-rendering/complex-text directive). -/
theorem prompt_contains_inputs_and_directives (d s p : String)
    (hd : d ≠ "") (hs : s ∈ logo_styles) (hp : p ≠ "") :
    strContains (create_logo_prompt d s p) d ∧
    strContains (create_logo_prompt d s p) s ∧
    strContains (create_logo_prompt d s p) p ∧
    strContains (create_logo_prompt d s p) ("A modern, clean, vector logo") ∧
    strContains (create_logo_prompt d s p) ("solid white background") ∧
    strContains (create_logo_prompt d s p) ("Avoid 3D rendering and complex text") := by
  refine ⟨?_, ?_, ?_, ?_, ?_, ?_⟩
  · exact strContains_intro _ d
      ("A modern, clean, vector logo for a company. " ++ "The company is: \x27")
      ("\x27. " ++ "The logo style should be: \x27" ++ s ++ "\x27. " ++
       "Use the color palette: \x27" ++ p ++ "\x27. " ++
       "The logo should be on a clean, solid white background, suitable for branding. " ++
       "The design must be simple, memorable, and professional. " ++
       "Avoid 3D rendering and complex text. The logo should be iconic.")
      (by simp [create_logo_prompt, String.append_assoc])
  · exact strContains_intro _ s
      ("A modern, clean, vector logo for a company. " ++ "The company is: \x27" ++ d ++
       "\x27. " ++ "The logo style should be: \x27")
      ("\x27. " ++ "Use the color palette: \x27" ++ p ++ "\x27. " ++
       "The logo should be on a clean, solid white background, suitable for branding. " ++
       "The design must be simple, memorable, and professional. " ++
       "Avoid 3D rendering and complex text. The logo should be iconic.")
      (by simp [create_logo_prompt, String.append_assoc])
  · exact strContains_intro _ p
      ("A modern, clean, vector logo for a company. " ++ "The company is: \x27" ++ d ++
       "\x27. " ++ "The logo style should be: \x27" ++ s ++ "\x27. " ++
       "Use the color palette: \x27")
      ("\x27. " ++
       "The logo should be on a clean, solid white background, suitable for branding. " ++
       "The design must be simple, memorable, and professional. " ++
       "Avoid 3D rendering and complex text. The logo should be iconic.")
      (by simp [create_logo_prompt, String.append_assoc])
  · apply strContains_intro2 _ ("A modern, clean, vector logo")
      (" for a company. " ++ "The company is: \x27" ++ d ++
       "\x27. " ++ "The logo style should be: \x27" ++ s ++ "\x27. " ++
       "Use the color palette: \x27" ++ p ++ "\x27. " ++
       "The logo should be on a clean, solid white background, suitable for branding. " ++
       "The design must be simple, memorable, and professional. " ++
       "Avoid 3D rendering and complex text. The logo should be iconic.")
    simp only [create_logo_prompt]
    rw [show ("A modern, clean, vector logo for a company. " : String) =
      "A modern, clean, vector logo" ++ " for a company. " from rfl]
    simp only [String.append_assoc]
  · apply strContains_intro _ ("solid white background")
      ("A modern, clean, vector logo for a company. " ++ "The company is: \x27" ++ d ++
       "\x27. " ++ "The logo style should be: \x27" ++ s ++ "\x27. " ++
       "Use the color palette: \x27" ++ p ++ "\x27. " ++
       "The logo should be on a clean, ")
      (", suitable for branding. " ++
       "The design must be simple, memorable, and professional. " ++
       "Avoid 3D rendering and complex text. The logo should be iconic.")
    simp only [create_logo_prompt]
    rw [show ("The logo should be on a clean, solid white background, suitable for branding. " : String) =
      "The logo should be on a clean, " ++ "solid white background" ++
      ", suitable for branding. " from rfl]
    simp [String.append_assoc]
  · apply strContains_intro _ ("Avoid 3D rendering and complex text")
      ("A modern, clean, vector logo for a company. " ++ "The company is: \x27" ++ d ++
       "\x27. " ++ "The logo style should be: \x27" ++ s ++ "\x27. " ++
       "Use the color palette: \x27" ++ p ++ "\x27. " ++
       "The logo should be on a clean, solid white background, suitable for branding. " ++
       "The design must be simple, memorable, and professional. ")
      (". The logo should be iconic.")
    simp only [create_logo_prompt]
    rw [show ("Avoid 3D rendering and complex text. The logo should be iconic." : String) =
      "Avoid 3D rendering and complex text" ++ ". The logo should be iconic." from rfl]
    simp [String.append_assoc]

/-- Witness for C4: the spec's Scenario-1 inputs. -/
theorem prompt_contains_inputs_and_directives_witness :
    strContains (create_logo_prompt ("coffee shop") ("Minimalist") ("brown and beige"))
      ("coffee shop") ∧
    strContains (create_logo_prompt ("coffee shop") ("Minimalist") ("brown and beige"))
      ("Minimalist") ∧
    strContains (create_logo_prompt ("coffee shop") ("Minimalist") ("brown and beige"))
      ("brown and beige") ∧
    strContains (create_logo_prompt ("coffee shop") ("Minimalist") ("brown and beige"))
      ("A modern, clean, vector logo") ∧
    strContains (create_logo_prompt ("coffee shop") ("Minimalist") ("brown and beige"))
      ("solid white background") ∧
    strContains (create_logo_prompt ("coffee shop") ("Minimalist") ("brown and beige"))
      ("Avoid 3D rendering and complex text") :=
  prompt_contains_inputs_and_directives ("coffee shop") ("Minimalist") ("brown and beige")
    (by decide) (by decide) (by decide)

/-- Claim C5: `create_logo_prompt` is deterministic — two calls with
identical inputs return byte-identical strings (the embedding is a total
pure function, so there are no side effects or error conditions). -/
theorem prompt_deterministic (d1 s1 p1 d2 s2 p2 : String)
    (hd : d1 = d2) (hs : s1 = s2) (hp : p1 = p2) :
    create_logo_prompt d1 s1 p1 = create_logo_prompt d2 s2 p2 := by
  rw [hd, hs, hp]

/-- Witness for C5. -/
theorem prompt_deterministic_witness :
    create_logo_prompt ("coffee shop") ("Minimalist") ("brown and beige") =
      create_logo_prompt ("coffee shop") ("Minimalist") ("brown and beige") :=
  prompt_deterministic ("coffee shop") ("Minimalist") ("brown and beige")
    ("coffee shop") ("Minimalist") ("brown and beige") rfl rfl rfl

/-- Claim C6: a submission with an empty description or an empty palette is
rejected locally with a warning before any network call — zero
image-generation calls and zero fetch calls are issued. -/
theorem empty_field_rejected_before_network (api : ImageApi) (fetch : Fetch)
    (desc style color : String) (h : desc = "" ∨ color = "") :
    handle_submit api fetch desc style color =
      { genCallsIssued := 0, fetchCallsIssued := 0, warningShown := true
        batchErrorShown := false, items := [] } := by
  rcases h with h | h <;> simp [handle_submit, h]

/-- Witness for C6: the spec's Scenario-4 inputs (empty description,
non-empty palette). -/
theorem empty_field_rejected_before_network_witness :
    handle_submit apiAllOk fetchAllOk ("") ("Minimalist") ("blue") =
      { genCallsIssued := 0, fetchCallsIssued := 0, warningShown := true
        batchErrorShown := false, items := [] } :=
  empty_field_rejected_before_network apiAllOk fetchAllOk ("") ("Minimalist") ("blue")
    (Or.inl rfl)

/-- Claim C7: in the result-display loop a fetch failure is isolated to its
item: with exactly one failing fetch at position j, item j alone shows the
fetch-error state and every other item still gets its download affordance. -/
theorem fetch_failure_isolated (fetch : Fetch) (urls : List String) (j : Nat)
    (hj : j < urls.length)
    (hfail : (fetch (urls.get ⟨j, hj⟩)).isOk = false)
    (hok : ∀ i, (hi : i < urls.length) → i ≠ j → (fetch (urls.get ⟨i, hi⟩)).isOk = true) :
    present_results fetch urls =
      (List.range urls.length).map
        (fun i => if i = j then none
          else some ("logo_concept_" ++ toString (i + 1) ++ ".png")) := by
  apply List.ext_get
  · simp [present_results_length]
  · intro n h1 h2
    have hn : n < urls.length := by
      have := present_results_length fetch urls
      omega
    rw [present_results_get fetch urls n hn h1]
    by_cases hcase : n = j
    · subst hcase
      cases hfetch : fetch (urls.get ⟨n, hn⟩) with
      | ok u =>
        rw [show (⟨n, hn⟩ : Fin urls.length) = ⟨n, hj⟩ from rfl] at hfetch
        rw [hfetch] at hfail
        simp [Except.isOk, Except.toBool] at hfail
      | error e =>
        simp only [List.get_eq_getElem] at hfetch
        simp [present_item, hfetch, List.get_eq_getElem, List.getElem_map,
          List.getElem_range]
    · have hu := hok n hn hcase
      cases hfetch : fetch (urls.get ⟨n, hn⟩) with
      | ok u =>
        simp only [List.get_eq_getElem] at hfetch
        simp [present_item, hfetch, List.get_eq_getElem, List.getElem_map,
          List.getElem_range, hcase]
      | error e =>
        rw [hfetch] at hu
        simp [Except.isOk, Except.toBool] at hu

/-- Witness for C7: the spec's Scenario-5 shape — 4 references, the fetch
of the 2nd failing, the other 3 downloadable. -/
theorem fetch_failure_isolated_witness :
    present_results fetchFail2 (["u1", "u2", "u3", "u4"]) =
      (List.range (["u1", "u2", "u3", "u4"] : List String).length).map
        (fun i => if i = 1 then none
          else some ("logo_concept_" ++ toString (i + 1) ++ ".png")) :=
  fetch_failure_isolated fetchFail2 (["u1", "u2", "u3", "u4"]) 1 (by decide)
    (by decide) (by decide)

/-- Claim C9: for a successful batch whose fetches all succeed, the
presenter offers item i for download under the 1-indexed deterministic
filename logo_concept_(i+1).png, in order. -/
theorem filenames_deterministic (fetch : Fetch) (urls : List String)
    (h : ∀ u ∈ urls, (fetch u).isOk = true) :
    present_results fetch urls =
      (List.range urls.length).map
        (fun i => some ("logo_concept_" ++ toString (i + 1) ++ ".png")) := by
  apply List.ext_get
  · simp [present_results_length]
  · intro n h1 h2
    have hn : n < urls.length := by
      have := present_results_length fetch urls
      omega
    rw [present_results_get fetch urls n hn h1]
    have hu : (fetch (urls.get ⟨n, hn⟩)).isOk = true := h _ (List.get_mem urls n hn)
    cases hfetch : fetch (urls.get ⟨n, hn⟩) with
    | ok u =>
      simp only [List.get_eq_getElem] at hfetch
      simp [present_item, hfetch, List.get_eq_getElem, List.getElem_map,
        List.getElem_range]
    | error e =>
      rw [hfetch] at hu
      simp [Except.isOk, Except.toBool] at hu

/-- Witness for C9: 4 successful references yield the filenames
logo_concept_1.png through logo_concept_4.png in order. -/
theorem filenames_deterministic_witness :
    present_results fetchAllOk (["u1", "u2", "u3", "u4"]) =
      (List.range (["u1", "u2", "u3", "u4"] : List String).length).map
        (fun i => some ("logo_concept_" ++ toString (i + 1) ++ ".png")) :=
  filenames_deterministic fetchAllOk (["u1", "u2", "u3", "u4"]) (by decide)

end AILogoSpark
